import Mathlib

/-!
Verification of the modmail repository's extension-loading mode computation
and plugin discovery/validation pipeline, as a shallow embedding in Lean 4.

Embedded sources:
* `modmail/utils/cogs.py` — `BitwiseAutoEnum`, `BotModes`, `ExtMetadata`, `calc_mode`;
* `scripts/export_requirements.py` — `check_hash` (its external collaborators
  `hashlib.sha256(...).hexdigest()` and `json.dumps(..., sort_keys=True)` are
  library code, modelled as function parameters);
* `modmail/addons/plugins.py` / `modmail/addons/models.py` are not part of the
  provided sources (only their tests are), so the plugin parser, discovery and
  name resolver are modelled from the specification, marked below.
-/

/-- Python `int(b)` on a boolean: `True ↦ 1`, `False ↦ 0`. -/
def pyInt (b : Bool) : Nat := if b then 1 else 0

/-- Python `x or 0` for a nonnegative integer `x`: returns `x` when truthy, else `0`.
For naturals this is the identity, but it is kept to mirror the source line
`mode += int(getattr(metadata, "develop", False) << 1) or 0` exactly. -/
def pyOrZero (n : Nat) : Nat := if n == 0 then 0 else n

/-- A Python object as seen by `calc_mode` through `getattr(obj, name, False)`:
each of the three attributes may be present (`some b`) or absent (`none`).
`ExtMetadata` instances always have all three present. -/
structure ExtAttrObj where
  production : Option Bool
  develop : Option Bool
  plugin_dev : Option Bool
  deriving DecidableEq

/-- Python `getattr(obj, name, default)` restricted to the boolean attributes
`calc_mode` reads: a present attribute yields its value, an absent one the default. -/
def getattr_bool (o : ExtAttrObj) (name : String) (default : Bool) : Bool :=
  (match name with
   | "production" => o.production
   | "develop" => o.develop
   | "plugin_dev" => o.plugin_dev
   | _ => none).getD default

/-- The dataclass `ExtMetadata` from `modmail/utils/cogs.py`: three boolean
fields, each defaulting to `False`. -/
structure ExtMetadata where
  production : Bool := false
  develop : Bool := false
  plugin_dev : Bool := false
  deriving DecidableEq

/-- View an `ExtMetadata` instance as an attribute object: a dataclass instance
always has all three attributes present. -/
def ExtMetadata.attrs (m : ExtMetadata) : ExtAttrObj :=
  ⟨some m.production, some m.develop, some m.plugin_dev⟩

/-- `calc_mode` from `modmail/utils/cogs.py`, line for line:
```
mode = int(getattr(metadata, "production", False))
mode += int(getattr(metadata, "develop", False) << 1) or 0
mode = mode + (int(getattr(metadata, "plugin_dev", False)) << 2)
return mode
```
(in Python, `b << 1` on a `bool` is the shift of `int(b)`). -/
def calc_mode (metadata : ExtAttrObj) : Nat :=
  let mode := pyInt (getattr_bool metadata "production" false)
  let mode := mode + pyOrZero ((pyInt (getattr_bool metadata "develop" false)) <<< 1)
  let mode := mode + ((pyInt (getattr_bool metadata "plugin_dev" false)) <<< 2)
  mode

/-- `BitwiseAutoEnum._generate_next_value_` from `modmail/utils/cogs.py`:
the value of the member created as the `count`-th one is `1 << count`. -/
def BitwiseAutoEnum_generate_next_value (count : Nat) : Nat := 1 <<< count

/-- The `BotModes` enum members from `modmail/utils/cogs.py`, in declaration order. -/
inductive BotModes
  | production
  | develop
  | plugin_dev
  deriving DecidableEq, Fintype

/-- Zero-based declaration index of a `BotModes` member (the `count` argument
`enum.auto` feeds to `_generate_next_value_`). -/
def BotModes.count : BotModes → Nat
  | .production => 0
  | .develop => 1
  | .plugin_dev => 2

/-- Integer value of a `BotModes` member, as generated by `BitwiseAutoEnum`. -/
def BotModes.value (m : BotModes) : Nat := BitwiseAutoEnum_generate_next_value m.count

/-- `EXT_METADATA = ExtMetadata()` from `modmail/extensions/meta.py`: all defaults. -/
def EXT_METADATA : ExtMetadata := {}

/-- C1: for every `ExtMetadata` record (all 8 combinations of the three booleans),
`calc_mode` equals `int(production) ||| (int(develop) <<< 1) ||| (int(plugin_dev) <<< 2)`,
which is the exact integer sum of the powers of two of the true flags
(production ↦ 1, develop ↦ 2, plugin_dev ↦ 4); several bits may be set at once,
witnessed by the all-true record mapping to 7. -/
theorem calc_mode_is_bitwise_or : ∀ p d pd : Bool,
    calc_mode (ExtMetadata.attrs ⟨p, d, pd⟩) =
      (pyInt p) ||| ((pyInt d) <<< 1) ||| ((pyInt pd) <<< 2) ∧
    calc_mode (ExtMetadata.attrs ⟨p, d, pd⟩) =
      (if p then 1 else 0) + (if d then 2 else 0) + (if pd then 4 else 0) := by
  decide

/-- C2: `calc_mode` is total and pure in the embedding; for every attribute
object (attributes present or absent) the result lies in `[0, 7]`, and an
absent attribute is treated exactly as the present value `False`. -/
theorem calc_mode_total_range_defaults : ∀ p d pd : Option Bool,
    calc_mode ⟨p, d, pd⟩ ≤ 7 ∧
    calc_mode ⟨p, d, pd⟩ =
      calc_mode ⟨some (p.getD false), some (d.getD false), some (pd.getD false)⟩ := by
  decide

/-- C3: the three `BotModes` members have single-bit values generated as
`1 << index`: production = 1, develop = 2, plugin_dev = 4; the set of values is
exactly {1, 2, 4} and distinct modes share no bit. -/
theorem botmodes_values_exclusive :
    BotModes.value .production = 1 ∧
    BotModes.value .develop = 2 ∧
    BotModes.value .plugin_dev = 4 ∧
    (∀ m : BotModes, m.value = 1 ∨ m.value = 2 ∨ m.value = 4) ∧
    (∀ a b : BotModes, a = b ∨ a.value &&& b.value = 0) := by
  decide

/-- C10: the Meta extension's `EXT_METADATA = ExtMetadata()` (all defaults false)
has `calc_mode` 0, so for every bot mode value the loader test
`mode & calc_mode(metadata) != 0` is false: the extension is eligible under no mode. -/
theorem ext_metadata_default_mode_zero :
    calc_mode EXT_METADATA.attrs = 0 ∧
    (∀ m : BotModes, ¬(m.value &&& calc_mode EXT_METADATA.attrs ≠ 0)) := by
  decide

/-- Modelled from the spec: `PluginManifestEntry` (class `Plugin` in the tests)
from the missing `modmail/addons/models.py` — fields `name`, `folder_name`
(the TOML key `folder`), `description`, `min_bot_version`, all strings. -/
structure Plugin where
  name : String
  folder_name : String
  description : String
  min_bot_version : String
  deriving DecidableEq

/-- A value in a parsed TOML document, restricted to the shapes a plugin
manifest uses: strings, tables and arrays. -/
inductive TomlValue
  | str (s : String)
  | table (kvs : List (String × TomlValue))
  | arr (vs : List TomlValue)

/-- A parsed TOML document: the top-level table's key/value pairs. -/
def TomlDoc : Type := List (String × TomlValue)

/-- Look up a key in a TOML table (first match). -/
def tomlLookup (kvs : List (String × TomlValue)) (k : String) : Option TomlValue :=
  match kvs with
  | [] => none
  | (k2, v) :: rest => if k2 == k then some v else tomlLookup rest k

/-- Modelled from the spec: the error taxonomy of the plugin TOML parser from
the missing `modmail/addons/plugins.py` — `ParseError` for text that is not
valid TOML, `SchemaError` for valid TOML violating the manifest schema. -/
inductive ManifestError
  | ParseError
  | SchemaError
  deriving DecidableEq

/-- Modelled from the spec: conversion of one element of the `plugins` array
into a `PluginManifestEntry`, field-for-field; `folder` maps to `folder_name`;
all four fields are mandatory strings, with no defaults. `none` means the
element violates the schema. -/
def entryToPlugin (v : TomlValue) : Option Plugin :=
  match v with
  | .table kvs =>
    match tomlLookup kvs "name", tomlLookup kvs "folder",
          tomlLookup kvs "description", tomlLookup kvs "min_bot_version" with
    | some (.str n), some (.str f), some (.str d), some (.str m) =>
        some ⟨n, f, d, m⟩
    | _, _, _, _ => none
  | _ => none

/-- Convert every element of the `plugins` array; any schema-violating element
fails the whole conversion. -/
def entriesToPlugins : List TomlValue → Option (List Plugin)
  | [] => some []
  | v :: rest =>
    match entryToPlugin v, entriesToPlugins rest with
    | some p, some ps => some (p :: ps)
    | _, _ => none

/-- Modelled from the spec: `parse_plugin_toml_from_string` from the missing
`modmail/addons/plugins.py`. The external standard TOML reader is modelled by
the argument: `none` when the text is not valid TOML, `some doc` for the parsed
document. The `plugins` key must be present and be an array whose every element
converts; otherwise the schema is violated. -/
def parse_plugin_toml_from_string (readerOutput : Option TomlDoc) :
    Except ManifestError (List Plugin) :=
  match readerOutput with
  | none => .error .ParseError
  | some doc =>
    match tomlLookup doc "plugins" with
    | some (.arr entries) =>
      match entriesToPlugins entries with
      | some ps => .ok ps
      | none => .error .SchemaError
    | _ => .error .SchemaError

/-- Modelled from the spec: the standard TOML reading of the literal manifest
`VALID_PLUGIN_TOML` from `tests/modmail/addons/test_plugins.py`: one
`[[plugins]]` entry with the four keys of the Planet plugin. -/
def VALID_PLUGIN_TOML_doc : TomlDoc :=
  [("plugins", .arr [.table
    [("name", .str "Planet"),
     ("folder", .str "planet"),
     ("description", .str "Planet. Tells you which planet you are probably on."),
     ("min_bot_version", .str "v0.2.0")]])]

/-- Modelled from the spec: the Planet manifest with only `min_bot_version` removed. -/
def MISSING_MIN_BOT_VERSION_doc : TomlDoc :=
  [("plugins", .arr [.table
    [("name", .str "Planet"),
     ("folder", .str "planet"),
     ("description", .str "Planet. Tells you which planet you are probably on.")]])]

/-- Modelled from the spec: the error raised by the Plugin Name Resolver when no
registry entry matches; it carries the attempted candidate name. -/
structure PluginNotFoundError where
  attempted_name : String
  deriving DecidableEq

/-- Modelled from the spec: the Plugin Name Resolver (`Plugin.convert` in the
tests) from the missing `modmail/addons/plugins.py` / `models.py`: exact,
case-sensitive lookup of the candidate against the registry's `name` field
(not `folder_name`); a miss fails with `PluginNotFoundError` carrying the
attempted name. The lookup is pure: the registry is not modified. -/
def Plugin.convert (registry : List Plugin) (candidate_name : String) :
    Except PluginNotFoundError Plugin :=
  match registry.find? (fun p => p.name == candidate_name) with
  | some p => .ok p
  | none => .error ⟨candidate_name⟩

/-- Modelled from the spec: the scan outcome at one configured plugin location,
as reported by the filesystem: the whole location may be missing, an I/O error
other than not-found may occur, or the location holds manifest files, each a
path paired with the external TOML reader's output for its text. -/
inductive DirScan
  | missing
  | ioErr (msg : String)
  | present (manifests : List (String × Option TomlDoc))

/-- Modelled from the spec: errors surfaced by `find_plugins` — an I/O error
other than not-found, or a manifest parse/schema error attributed to the
offending file path. -/
inductive FindPluginsError
  | ioErr (msg : String)
  | manifestError (path : String) (e : ManifestError)
  deriving DecidableEq

/-- Parse every manifest found at one location; a malformed manifest surfaces
as an error attributed to its path. -/
def parse_manifests : List (String × Option TomlDoc) →
    Except FindPluginsError (List Plugin)
  | [] => .ok []
  | (path, doc) :: rest =>
    match parse_plugin_toml_from_string doc with
    | .error e => .error (.manifestError path e)
    | .ok ps =>
      match parse_manifests rest with
      | .error e => .error e
      | .ok qs => .ok (ps ++ qs)

/-- Modelled from the spec: `find_plugins` from the missing
`modmail/addons/plugins.py` — scans the configured locations (each a name
paired with its scan outcome), skips a missing location as zero plugins,
propagates other I/O errors, parses every manifest of a present location and
merges all results into one registry. -/
def find_plugins : List (String × DirScan) → Except FindPluginsError (List Plugin)
  | [] => .ok []
  | (_, .missing) :: rest => find_plugins rest
  | (_, .ioErr msg) :: _ => .error (.ioErr msg)
  | (_, .present ms) :: rest =>
    match parse_manifests ms with
    | .error e => .error e
    | .ok ps =>
      match find_plugins rest with
      | .error e => .error e
      | .ok qs => .ok (ps ++ qs)

/-- The Planet plugin entry that `VALID_PLUGIN_TOML` describes. -/
def PLANET : Plugin :=
  ⟨"Planet", "planet", "Planet. Tells you which planet you are probably on.", "v0.2.0"⟩

/-- If any element of the `plugins` array violates the schema, the whole
conversion of the array fails. -/
theorem entriesToPlugins_eq_none {entries : List TomlValue} {e : TomlValue}
    (hmem : e ∈ entries) (hbad : entryToPlugin e = none) :
    entriesToPlugins entries = none := by
  induction entries with
  | nil => cases hmem
  | cons v rest ih =>
    cases hmem with
    | head => simp [entriesToPlugins, hbad]
    | tail _ hm =>
      have h2 := ih hm
      cases hv : entryToPlugin v <;> simp [entriesToPlugins, hv, h2]

/-- In a registry whose names are pairwise distinct, looking up a member's name
finds exactly that member. -/
theorem find?_name_eq_self {registry : List Plugin} {p : Plugin}
    (huniq : registry.Pairwise (fun a b => a.name ≠ b.name))
    (hmem : p ∈ registry) :
    registry.find? (fun q => q.name == p.name) = some p := by
  induction registry with
  | nil => cases hmem
  | cons h t ih =>
    rcases List.pairwise_cons.mp huniq with ⟨hhead, htail⟩
    cases hmem with
    | head => simp [List.find?_cons]
    | tail _ hm =>
      have hne : h.name ≠ p.name := hhead p hm
      simp [List.find?_cons, hne, ih htail hm]

/-- C4: parsing the literal `VALID_PLUGIN_TOML` manifest yields exactly one
entry, with `name = "Planet"`, `folder_name = "planet"` (TOML key `folder`),
the Planet description and `min_bot_version = "v0.2.0"`. -/
theorem parse_valid_plugin_toml :
    parse_plugin_toml_from_string (some VALID_PLUGIN_TOML_doc) = .ok [PLANET] := by
  rfl

/-- C5: every entry of a registry produced by `find_plugins` — which, by the
registry invariant, has pairwise distinct names — resolves through the Plugin
Name Resolver to itself: an identity round-trip of name lookup. -/
theorem find_plugins_convert_roundtrip
    (dirs : List (String × DirScan)) (registry : List Plugin)
    (_hfind : find_plugins dirs = .ok registry)
    (huniq : registry.Pairwise (fun a b => a.name ≠ b.name)) :
    ∀ p ∈ registry, Plugin.convert registry p.name = .ok p := by
  intro p hp
  unfold Plugin.convert
  rw [find?_name_eq_self huniq hp]

/-- Witness for C5: a one-directory discovery finds exactly the Planet plugin,
and resolving "Planet" against that registry returns it. -/
theorem find_plugins_convert_roundtrip_witness :
    Plugin.convert [PLANET] PLANET.name = .ok PLANET :=
  find_plugins_convert_roundtrip
    [("plugins", DirScan.present [("plugins/planet/plugin.toml", some VALID_PLUGIN_TOML_doc)])]
    [PLANET] rfl (by simp) PLANET (by simp)

/-- C6: when no registry entry's `name` equals the candidate, the Plugin Name
Resolver fails with `PluginNotFoundError` carrying exactly the attempted
candidate name (the lookup is a pure function: the registry is untouched). -/
theorem convert_not_found (registry : List Plugin) (candidate : String)
    (h : ∀ p ∈ registry, p.name ≠ candidate) :
    Plugin.convert registry candidate = .error ⟨candidate⟩ := by
  unfold Plugin.convert
  have hnone : registry.find? (fun p => p.name == candidate) = none := by
    rw [List.find?_eq_none]
    intro x hx
    simp [h x hx]
  rw [hnone]

/-- Witness for C6: "Nonexistent" matches no entry of the Planet registry and
resolution fails carrying "Nonexistent". -/
theorem convert_not_found_witness :
    Plugin.convert [PLANET] "Nonexistent" = .error ⟨"Nonexistent"⟩ :=
  convert_not_found [PLANET] "Nonexistent" (by decide)

/-- C7: the parser fails with `ParseError` exactly when the external TOML
reader rejects the text; it fails with `SchemaError` (never a default) when the
top-level `plugins` key is absent, or some array element is missing a required
field; in particular the Planet manifest without `min_bot_version` fails with
`SchemaError`. -/
theorem parse_plugin_toml_error_conditions :
    parse_plugin_toml_from_string none = .error .ParseError ∧
    (∀ doc : TomlDoc, tomlLookup doc "plugins" = none →
      parse_plugin_toml_from_string (some doc) = .error .SchemaError) ∧
    (∀ (doc : TomlDoc) (entries : List TomlValue) (e : TomlValue),
      tomlLookup doc "plugins" = some (.arr entries) → e ∈ entries →
      entryToPlugin e = none →
      parse_plugin_toml_from_string (some doc) = .error .SchemaError) ∧
    parse_plugin_toml_from_string (some MISSING_MIN_BOT_VERSION_doc) =
      .error .SchemaError := by
  refine ⟨rfl, ?_, ?_, rfl⟩
  · intro doc h
    simp [parse_plugin_toml_from_string, h]
  · intro doc entries e h1 h2 h3
    simp [parse_plugin_toml_from_string, h1, entriesToPlugins_eq_none h2 h3]

/-- Witness for C7: a document without a `plugins` key, and one whose single
entry has only a `name`, both fail with `SchemaError`. -/
theorem parse_plugin_toml_error_conditions_witness :
    parse_plugin_toml_from_string (some ([] : TomlDoc)) = .error .SchemaError ∧
    parse_plugin_toml_from_string
      (some ([("plugins", .arr [.table [("name", .str "x")]])] : TomlDoc)) =
      .error .SchemaError :=
  ⟨parse_plugin_toml_error_conditions.2.1 [] rfl,
   parse_plugin_toml_error_conditions.2.2.1 _ [.table [("name", .str "x")]]
     (.table [("name", .str "x")]) rfl (List.mem_cons_self _ _) rfl⟩

/-- C8: a missing plugin directory contributes zero plugins and raises nothing
(discovery proceeds with the remaining sources); a malformed manifest in a
present location surfaces as an error attributed to the offending file path;
an I/O error other than not-found propagates. -/
theorem find_plugins_error_policy :
    (∀ (dname : String) (rest : List (String × DirScan)),
      find_plugins ((dname, .missing) :: rest) = find_plugins rest) ∧
    (∀ (dname path : String) (rest : List (String × DirScan)),
      find_plugins ((dname, .present [(path, none)]) :: rest) =
        .error (.manifestError path .ParseError)) ∧
    (∀ (dname msg : String) (rest : List (String × DirScan)),
      find_plugins ((dname, .ioErr msg) :: rest) = .error (.ioErr msg)) :=
  ⟨fun _ _ => rfl, fun _ _ _ => rfl, fun _ _ _ => rfl⟩

/-- The `_relevant_keys` list from `check_hash` in `scripts/export_requirements.py`. -/
def relevant_keys : List String :=
  ["dependencies", "dev-dependencies", "source", "extras"]

/-- The pyproject content as `check_hash` reads it: only the dictionary
`content["tool"]["poetry"]` is consulted, and `content.get(key)` yields `none`
for a missing key. The stored values are arbitrary (`α`), as the source keeps
whatever the TOML reader produced. -/
structure Pyproject (α : Type) where
  tool_poetry : String → Option α

/-- The `relevant_content` dictionary built inside `get_hash`: the four
relevant keys, in insertion order, each mapped to `content.get(key)`. -/
def relevant_content {α : Type} (poetry : String → Option α) :
    List (String × Option α) :=
  relevant_keys.map (fun key => (key, poetry key))

/-- `get_hash` from `check_hash` in `scripts/export_requirements.py`:
`json_dumps_sorted` models the external `json.dumps(..., sort_keys=True)` and
`sha256_hexdigest` models the external
`hashlib.sha256(...encode()).hexdigest()`. -/
def get_hash {α : Type} (json_dumps_sorted : List (String × Option α) → String)
    (sha256_hexdigest : String → String) (content : Pyproject α) : String :=
  sha256_hexdigest (json_dumps_sorted (relevant_content content.tool_poetry))

/-- `check_hash` from `scripts/export_requirements.py`: the stored hash matches
iff it equals `get_hash` of the pyproject content. -/
def check_hash {α : Type} (json_dumps_sorted : List (String × Option α) → String)
    (sha256_hexdigest : String → String) (hash : String) (content : Pyproject α) :
    Bool :=
  hash == get_hash json_dumps_sorted sha256_hexdigest content

/-- C9: `check_hash` depends only on the values of the four relevant keys
inside `content["tool"]["poetry"]`: two contents agreeing there get the same
verdict for every hash; and the verdict is `true` exactly when the hash equals
the digest (the modelled hex SHA-256 of the sorted-key JSON serialization) of
the mapping of those four keys. -/
theorem check_hash_depends_only_on_relevant_keys {α : Type}
    (json_dumps_sorted : List (String × Option α) → String)
    (sha256_hexdigest : String → String) (hash : String)
    (c1 c2 : Pyproject α)
    (hagree : ∀ k ∈ relevant_keys, c1.tool_poetry k = c2.tool_poetry k) :
    check_hash json_dumps_sorted sha256_hexdigest hash c1 =
      check_hash json_dumps_sorted sha256_hexdigest hash c2 ∧
    (check_hash json_dumps_sorted sha256_hexdigest hash c1 = true ↔
      hash = get_hash json_dumps_sorted sha256_hexdigest c1) := by
  have hrc : relevant_content c1.tool_poetry = relevant_content c2.tool_poetry :=
    List.map_congr_left (fun k hk => by rw [hagree k hk])
  constructor
  · unfold check_hash get_hash
    rw [hrc]
  · simp [check_hash, get_hash]

/-- Witness for C9: two (equal) contents empty on every key agree on the four
relevant keys, get the same verdict, and the verdict characterization holds. -/
theorem check_hash_depends_witness :
    check_hash (α := Nat) (fun _ => "d") (fun s => s) "d" ⟨fun _ => none⟩ =
      check_hash (α := Nat) (fun _ => "d") (fun s => s) "d" ⟨fun _ => none⟩ ∧
    (check_hash (α := Nat) (fun _ => "d") (fun s => s) "d" ⟨fun _ => none⟩ =
        true ↔
      "d" = get_hash (α := Nat) (fun _ => "d") (fun s => s) ⟨fun _ => none⟩) :=
  check_hash_depends_only_on_relevant_keys _ _ _ _ _ (fun _ _ => rfl)
